import Mathlib

/-
Verification of the Weather Classification & Alert Engine of the
cccs106-projects repository (src/mod6_labs/main.py).

The embedding models:
  - WEATHER_MAPPING (main.py lines 9-18) as an association list from
    category keys to color/icon records; Flet color constants are
    represented by their names as strings.
  - the inline condition classifier of display_weather (lines 222-226)
    as the function classify;
  - check_alerts (lines 193-208) as the function check_alerts, with
    temperatures modeled as rationals (35.0, 5.0 and 28.0 are exact, and
    the code only compares temperatures, so no floating-point rounding
    is involved);
  - the field extraction of display_weather (lines 213-220) as getTemp
    and getWeatherId over an observation record whose fields are
    Option-valued, mirroring the chained dict .get defaulting paths.
Python str.startswith is modeled over the character lists of the
strings by listIsInit / pyStartswith.
-/

structure Mapping where
  color : String
  icon : String
deriving DecidableEq

/- WEATHER_MAPPING, main.py lines 9-18, in source order. -/
def WEATHER_MAPPING : List (String × Mapping) := [
  ("2", ⟨"DEEP_PURPLE_800", "⛈️"⟩),
  ("3", ⟨"BLUE_GREY_700", "🌧️"⟩),
  ("5", ⟨"INDIGO_600", "☔"⟩),
  ("6", ⟨"LIGHT_BLUE_200", "❄️"⟩),
  ("7", ⟨"BLUE_GREY_400", "🌫️"⟩),
  ("800", ⟨"YELLOW_400", "☀️"⟩),
  ("8", ⟨"BLUE_GREY_300", "☁️"⟩),
  ("default", ⟨"WHITE", "❓"⟩)]

/- Python dict key lookup (keys of WEATHER_MAPPING are pairwise distinct,
so association-list order is irrelevant). -/
def dictLookup (k : String) : List (String × Mapping) → Option Mapping
  | [] => none
  | (k2, v) :: rest => if k = k2 then some v else dictLookup k rest

def clearSkyEntry : Mapping := ⟨"YELLOW_400", "☀️"⟩

def defaultEntry : Mapping := ⟨"WHITE", "❓"⟩

/- Model of the Python indexing WEATHER_MAPPING[k] for keys known to be
present ("800" and "default" in the source). -/
def dictIndex (k : String) : Mapping :=
  (dictLookup k WEATHER_MAPPING).getD ⟨"", ""⟩

/- category_key = weather_id[0] if weather_id else "default"
(main.py line 225). -/
def firstCharKey (s : String) : String :=
  match s.data with
  | [] => "default"
  | c :: _ => String.singleton c

/- The condition classifier, main.py lines 222-226:
exact match on "800" first, then first-character lookup with fallback
to WEATHER_MAPPING["default"]. -/
def classify (weather_id : String) : Mapping :=
  if weather_id = "800" then dictIndex "800"
  else (dictLookup (firstCharKey weather_id) WEATHER_MAPPING).getD (dictIndex "default")

structure AlertInfo where
  color : String
  recommendation : String
deriving DecidableEq

/- The four rows of ALERT_THRESHOLDS (main.py lines 21-26), keeping the
color and recommendation fields that check_alerts returns and
display_weather consumes. -/
def HEAT_ALERT : AlertInfo :=
  ⟨"RED_700", "🔥 EXTREME HEAT WARNING! Stay hydrated and limit outdoor activity."⟩

def COLD_ALERT : AlertInfo :=
  ⟨"BLUE_700", "🥶 COLD WARNING! Wear warm layers and protect exposed skin."⟩

def RAIN_ALERT : AlertInfo :=
  ⟨"ORANGE_700", "🌧️ Heavy Rain Expected. Bring an umbrella and drive safely."⟩

def SUN_ALERT : AlertInfo :=
  ⟨"YELLOW_800", "☀️ High UV Index expected. Wear sunscreen and a hat."⟩

/- listIsInit p s decides whether the character list p is an initial
segment of s. -/
def listIsInit : List Char → List Char → Bool
  | [], _ => true
  | _ :: _, [] => false
  | a :: as, b :: bs => a == b && listIsInit as bs

/- Python s.startswith(p). -/
def pyStartswith (s p : String) : Bool := listIsInit p.data s.data

/- check_alerts, main.py lines 193-208: four guards tried in order,
first match wins, None when none matches. The thresholds 35.0, 5.0,
28.0 and the literal prefixes come from ALERT_THRESHOLDS and from the
inlined startswith calls of the source. -/
def check_alerts (temp : ℚ) (weather_id : String) : Option AlertInfo :=
  if temp ≥ 35 then some HEAT_ALERT
  else if temp ≤ 5 then some COLD_ALERT
  else if pyStartswith weather_id "5" || pyStartswith weather_id "2" then some RAIN_ALERT
  else if temp ≥ 28 ∧ (pyStartswith weather_id "6" || pyStartswith weather_id "2" || pyStartswith weather_id "5") = false then some SUN_ALERT
  else none

structure MainBlock where
  temp : Option ℚ
  feels_like : Option ℚ
  humidity : Option ℚ
deriving DecidableEq

structure WeatherItem where
  id : Option Int
  description : Option String
deriving DecidableEq

/- The parts of the provider response dict that display_weather reads
for the core; a missing dict key is None. -/
structure ObsData where
  name : Option String
  main : Option MainBlock
  weather : Option (List WeatherItem)
deriving DecidableEq

def emptyMain : MainBlock := ⟨none, none, none⟩

def emptyItem : WeatherItem := ⟨none, none⟩

/- temp = data.get("main", zero).get("temp", 0), main.py line 215. -/
def getTemp (d : ObsData) : ℚ := ((d.main.getD emptyMain).temp).getD 0

/- weather_id = str(data.get("weather", [zero])[0].get("id", "0")),
main.py line 220; none models the IndexError of [0] on a present but
empty weather list, which is not a missing-field path. -/
def getWeatherId (d : ObsData) : Option String :=
  match (d.weather.getD [emptyItem]).head? with
  | some item =>
      some (match item.id with
            | some n => toString n
            | none => "0")
  | none => none

example : classify "800" = clearSkyEntry := by decide
example : classify "212" = ⟨"DEEP_PURPLE_800", "⛈️"⟩ := by decide
example : classify "" = defaultEntry := by decide
example : classify "999" = defaultEntry := by decide
example : check_alerts 5 "500" = some COLD_ALERT := by decide
example : check_alerts 35 "800" = some HEAT_ALERT := by decide
example : check_alerts 10 "211" = some RAIN_ALERT := by decide
example : check_alerts 30 "800" = some SUN_ALERT := by decide
example : check_alerts 30 "600" = none := by decide
example : check_alerts 20 "999" = none := by decide
example : getWeatherId ⟨none, none, none⟩ = some "0" := by decide

lemma dictLookup_mem {k : String} {l : List (String × Mapping)} {v : Mapping}
    (h : dictLookup k l = some v) : (k, v) ∈ l := by
  induction l with
  | nil => simp [dictLookup] at h
  | cons p rest ih =>
    obtain ⟨k2, v2⟩ := p
    by_cases hk : k = k2
    · subst hk
      simp [dictLookup] at h
      simp [h]
    · simp [dictLookup, hk] at h
      exact List.mem_cons_of_mem _ (ih h)

lemma firstCharKey_ne_800 (s : String) : firstCharKey s ≠ "800" := by
  unfold firstCharKey
  cases h : s.data with
  | nil => decide
  | cons c cs =>
    intro he
    have hd := congrArg String.data he
    have h800 : ("800" : String).data = ['8', '0', '0'] := rfl
    rw [h800] at hd
    simp [String.singleton] at hd

lemma firstCharKey_head (c : String) (d : Char) (hd : c.data.head? = some d) :
    firstCharKey c = String.singleton d := by
  unfold firstCharKey
  cases h : c.data with
  | nil => rw [h] at hd; simp at hd
  | cons x xs =>
    rw [h] at hd
    simp at hd
    rw [hd]

lemma classify_ne_800 (c : String) (hc : c ≠ "800") :
    classify c = (dictLookup (firstCharKey c) WEATHER_MAPPING).getD defaultEntry := by
  unfold classify
  rw [if_neg hc]
  rfl

lemma dictLookup_eq_clearSky {k : String}
    (h : dictLookup k WEATHER_MAPPING = some clearSkyEntry) : k = "800" := by
  simp only [WEATHER_MAPPING, dictLookup] at h
  split_ifs at h <;> first | assumption | exact absurd h (by decide)

/-- C1: the classifier checks the condition code for exact equality with
"800" before the first-character rule. classify "800" is the clear-sky
entry and not the clouds entry for key "8", and every non-empty code
other than "800" whose first character d has an entry in
WEATHER_MAPPING is classified by the entry for key d. -/
theorem classify_checks_800_before_first_char :
    classify "800" = clearSkyEntry ∧
    classify "800" ≠ ⟨"BLUE_GREY_300", "☁️"⟩ ∧
    (∀ (c : String), c ≠ "800" → ∀ (d : Char) (m : Mapping),
      c.data.head? = some d →
      dictLookup (String.singleton d) WEATHER_MAPPING = some m →
      classify c = m) := by
  refine ⟨by decide, by decide, ?_⟩
  intro c hc d m hd hm
  rw [classify_ne_800 c hc, firstCharKey_head c d hd, hm]
  rfl

theorem classify_checks_800_witness :
    classify "212" = ⟨"DEEP_PURPLE_800", "⛈️"⟩ :=
  classify_checks_800_before_first_char.2.2 "212" (by decide) '2'
    ⟨"DEEP_PURPLE_800", "⛈️"⟩ (by decide) (by decide)

/-- C2: the classifier is total: every code is mapped to an entry that
occurs in WEATHER_MAPPING, the empty code falls back to the default
entry, and so does any code whose first character has no entry in the
table. In the embedding classify is a total Lean function, so it never
fails and has no side effects by construction. -/
theorem classify_total_with_default_fallback :
    ∀ c : String,
      (∃ k, (k, classify c) ∈ WEATHER_MAPPING) ∧
      (c = "" → classify c = defaultEntry) ∧
      (∀ d : Char, c.data.head? = some d →
        dictLookup (String.singleton d) WEATHER_MAPPING = none →
        classify c = defaultEntry) := by
  intro c
  refine ⟨?_, ?_, ?_⟩
  · by_cases hc : c = "800"
    · subst hc
      exact ⟨"800", by decide⟩
    · rw [classify_ne_800 c hc]
      cases hl : dictLookup (firstCharKey c) WEATHER_MAPPING with
      | none => exact ⟨"default", by decide⟩
      | some m =>
        refine ⟨firstCharKey c, ?_⟩
        simpa using dictLookup_mem hl
  · intro hce
    subst hce
    decide
  · intro d hd hn
    by_cases hc : c = "800"
    · subst hc
      have h800 : ("800" : String).data = ['8', '0', '0'] := rfl
      rw [h800] at hd
      simp at hd
      rw [← hd] at hn
      exact absurd hn (by decide)
    · rw [classify_ne_800 c hc, firstCharKey_head c d hd, hn]
      rfl

theorem classify_total_witness : classify "999" = defaultEntry :=
  (classify_total_with_default_fallback "999").2.2 '9' (by decide) (by decide)

/-- C10: the classifier returns the clear-sky entry only for the exact
code "800": for every other code, including "8", "80" and "8000", the
result differs from the clear-sky entry, because no other row of
WEATHER_MAPPING and not the default entry carries that color/icon
pair. -/
theorem clear_sky_only_for_800 (c : String) (h : c ≠ "800") :
    classify c ≠ clearSkyEntry := by
  rw [classify_ne_800 c h]
  cases hl : dictLookup (firstCharKey c) WEATHER_MAPPING with
  | none => decide
  | some m =>
    intro he
    simp at he
    rw [he] at hl
    exact firstCharKey_ne_800 c (dictLookup_eq_clearSky hl)

theorem clear_sky_only_witness :
    classify "8" ≠ clearSkyEntry ∧ classify "80" ≠ clearSkyEntry ∧
    classify "8000" ≠ clearSkyEntry :=
  ⟨clear_sky_only_for_800 "8" (by decide), clear_sky_only_for_800 "80" (by decide),
    clear_sky_only_for_800 "8000" (by decide)⟩

/-- C3: rules are tried in the fixed order HEAT, COLD, RAIN, SUN with
first match winning, and the Option result carries at most one alert:
for every temperature at most 5 and every condition code, including
codes beginning with "5" or "2", check_alerts returns the COLD alert
and not the RAIN alert, and the boundary check_alerts 5 "500" is
COLD. -/
theorem cold_priority_over_rain :
    (∀ (t : ℚ), t ≤ 5 → ∀ c : String,
      check_alerts t c = some COLD_ALERT ∧ check_alerts t c ≠ some RAIN_ALERT) ∧
    check_alerts 5 "500" = some COLD_ALERT := by
  refine ⟨?_, by decide⟩
  intro t ht c
  have hcold : check_alerts t c = some COLD_ALERT := by
    unfold check_alerts
    rw [if_neg (by linarith : ¬t ≥ 35), if_pos ht]
  exact ⟨hcold, by rw [hcold]; decide⟩

theorem cold_priority_witness :
    check_alerts 0 "512" = some COLD_ALERT ∧ check_alerts 0 "512" ≠ some RAIN_ALERT :=
  cold_priority_over_rain.1 0 (by norm_num) "512"

/-- C4: the HEAT rule fires for every temperature at least 35 whatever
the condition code, and the threshold is inclusive: check_alerts 35
"800" is the HEAT alert. -/
theorem heat_threshold_inclusive :
    (∀ (t : ℚ), 35 ≤ t → ∀ c : String, check_alerts t c = some HEAT_ALERT) ∧
    check_alerts 35 "800" = some HEAT_ALERT := by
  refine ⟨?_, by decide⟩
  intro t ht c
  unfold check_alerts
  rw [if_pos ht]

theorem heat_threshold_witness : check_alerts 40 "200" = some HEAT_ALERT :=
  heat_threshold_inclusive.1 40 (by norm_num) "200"

/-- C5: for every temperature strictly between 5 and 35 and every
condition code beginning with "5" or with "2", check_alerts returns the
RAIN alert; in particular check_alerts 10 "211" is RAIN. -/
theorem rain_rule_prefixes :
    (∀ (t : ℚ), 5 < t → t < 35 → ∀ c : String,
      pyStartswith c "5" = true ∨ pyStartswith c "2" = true →
      check_alerts t c = some RAIN_ALERT) ∧
    check_alerts 10 "211" = some RAIN_ALERT := by
  refine ⟨?_, by decide⟩
  intro t ht1 ht2 c hp
  unfold check_alerts
  split_ifs with h1 h2 h3
  · exact absurd h1 (by linarith)
  · exact absurd h2 (by linarith)
  · rfl
  all_goals rcases hp with h | h <;> simp [h] at h3

theorem rain_rule_witness : check_alerts 12 "502" = some RAIN_ALERT :=
  rain_rule_prefixes.1 12 (by norm_num) (by norm_num) "502" (Or.inl (by decide))

/-- C6: for every temperature t with 28 ≤ t < 35 and every condition
code that starts with none of "6", "2", "5" — among them codes starting
with "7", "8" or "3" and the empty code — check_alerts returns the SUN
alert; and exactly those three are the excluded ones: whenever the code
does start with "6", "2" or "5", the result is never the SUN alert. -/
theorem sun_rule_exact_exclusions :
    (∀ (t : ℚ), 28 ≤ t → t < 35 → ∀ c : String,
      pyStartswith c "6" = false → pyStartswith c "2" = false →
      pyStartswith c "5" = false →
      check_alerts t c = some SUN_ALERT) ∧
    (∀ (t : ℚ) (c : String),
      pyStartswith c "6" = true ∨ pyStartswith c "2" = true ∨
        pyStartswith c "5" = true →
      check_alerts t c ≠ some SUN_ALERT) := by
  constructor
  · intro t ht1 ht2 c h6 h2c h5c
    unfold check_alerts
    split_ifs with h1 h2 h3 h4
    · exact absurd h1 (by linarith)
    · exact absurd h2 (by linarith)
    · simp [h5c, h2c] at h3
    · rfl
    · exact absurd ⟨by linarith, by simp [h6, h2c, h5c]⟩ h4
  · intro t c hp
    unfold check_alerts
    split_ifs with h1 h2 h3 h4
    · decide
    · decide
    · decide
    · rcases h4 with ⟨hta, hb⟩
      rcases hp with h | h | h <;> simp [h] at hb
    · decide

theorem sun_rule_witness :
    check_alerts 30 "804" = some SUN_ALERT ∧ check_alerts 30 "622" ≠ some SUN_ALERT :=
  ⟨sun_rule_exact_exclusions.1 30 (by norm_num) (by norm_num) "804"
      (by decide) (by decide) (by decide),
    sun_rule_exact_exclusions.2 30 "622" (Or.inl (by decide))⟩

/-- C7: check_alerts returns none exactly when no rule matches: for
every temperature strictly between 5 and 28 and every code not
beginning with "5" or "2" the result is none, check_alerts 30 "600" is
none (SUN suppressed by the "6" prefix), and check_alerts 20 "999" is
none. -/
theorem no_alert_when_no_rule_matches :
    (∀ (t : ℚ), 5 < t → t < 28 → ∀ c : String,
      pyStartswith c "5" = false → pyStartswith c "2" = false →
      check_alerts t c = none) ∧
    check_alerts 30 "600" = none ∧ check_alerts 20 "999" = none := by
  refine ⟨?_, by decide, by decide⟩
  intro t ht1 ht2 c h5c h2c
  unfold check_alerts
  split_ifs with h1 h2 h3 h4
  · exact absurd h1 (by linarith)
  · exact absurd h2 (by linarith)
  · simp [h5c, h2c] at h3
  · exact absurd h4.1 (by linarith)
  · rfl

theorem no_alert_witness : check_alerts 15 "801" = none :=
  no_alert_when_no_rule_matches.1 15 (by norm_num) (by norm_num) "801"
    (by decide) (by decide)

/-- C8 counterexample: an observation whose weather field is missing is
given the condition code "0", not the empty string, by the extraction
of display_weather (the default in data.get(..).get("id", "0") is the
one-character string "0"). -/
theorem missing_weather_id_not_empty :
    getWeatherId ⟨none, none, none⟩ = some "0" ∧
    getWeatherId ⟨none, none, none⟩ ≠ some "" := by decide

/-- C8 amended: the calling layer normalizes missing upstream fields
before the core is invoked: a missing main block or a missing temp
field yields temperature 0, and a missing condition-code field — a
missing weather list just as well as a present weather list whose
first item lacks an id — yields the condition code "0", the string
zero, not the empty string. -/
theorem missing_fields_normalized_amended (d : ObsData) :
    (d.main = none → getTemp d = 0) ∧
    ((d.main.getD emptyMain).temp = none → getTemp d = 0) ∧
    (d.weather = none → getWeatherId d = some "0") ∧
    (∀ (item : WeatherItem) (rest : List WeatherItem),
      d.weather = some (item :: rest) → item.id = none →
      getWeatherId d = some "0") := by
  refine ⟨?_, ?_, ?_, ?_⟩
  · intro h
    unfold getTemp
    rw [h]
    rfl
  · intro h
    unfold getTemp
    rw [h]
    rfl
  · intro h
    unfold getWeatherId
    rw [h]
    rfl
  · intro item rest hw hid
    have h1 : getWeatherId d = some (match item.id with
        | some n => toString n
        | none => "0") := by
      unfold getWeatherId
      rw [hw]
      rfl
    rw [h1, hid]

theorem missing_fields_witness :
    getTemp ⟨some "x", none, none⟩ = 0 ∧
    getWeatherId ⟨some "x", none, none⟩ = some "0" ∧
    getWeatherId ⟨some "x", none, some [⟨none, none⟩]⟩ = some "0" :=
  ⟨(missing_fields_normalized_amended ⟨some "x", none, none⟩).1 rfl,
    (missing_fields_normalized_amended ⟨some "x", none, none⟩).2.2.1 rfl,
    (missing_fields_normalized_amended ⟨some "x", none, some [⟨none, none⟩]⟩).2.2.2
      ⟨none, none⟩ [] rfl rfl⟩

/-- C9: classify and check_alerts are deterministic pure functions: two
calls on identical inputs give identical outputs. In the shallow
embedding both are plain Lean functions of their arguments alone — they
take no state, so determinism is congruence in the inputs. -/
theorem classify_evaluate_deterministic :
    (∀ c1 c2 : String, c1 = c2 → classify c1 = classify c2) ∧
    (∀ (t1 t2 : ℚ) (c1 c2 : String), t1 = t2 → c1 = c2 →
      check_alerts t1 c1 = check_alerts t2 c2) := by
  constructor
  · intro c1 c2 h
    rw [h]
  · intro t1 t2 c1 c2 ht hc
    rw [ht, hc]

theorem deterministic_witness :
    classify "800" = classify "800" ∧ check_alerts 10 "211" = check_alerts 10 "211" :=
  ⟨classify_evaluate_deterministic.1 "800" "800" rfl,
    classify_evaluate_deterministic.2 10 10 "211" "211" rfl rfl⟩
